import Mathlib

/-!
Verification of the Hokkaido municipality news ingestion pipeline.

The development shallowly embeds the two Python scripts of the repository
(`main.py` and `.github/workflows/main.py`): Python `datetime` values become a
structure holding a proleptic-Gregorian day number (rata die, as in Howard
Hinnant's civil-date algorithms), a time-of-day in microseconds, and an
optional fixed UTC offset in minutes (naive values carry no offset).  The
external Notion store becomes a list of stored records queried by fingerprint.
External library calls (`email.utils.parsedate_to_datetime`,
`datetime.fromisoformat`) are modelled by executable functions restricted to
the documented grammars the pipeline relies on; each model carries a doc
comment stating the restriction.
-/

namespace HokkaidoNews

/-! ## Calendar arithmetic (proleptic Gregorian, Hinnant's algorithms) -/

def isLeap (y : Int) : Bool :=
  y % 4 == 0 && (y % 100 != 0 || y % 400 == 0)

def daysInMonth (y : Int) (m : Nat) : Nat :=
  if m == 2 then (if isLeap y then 29 else 28)
  else if m == 4 || m == 6 || m == 9 || m == 11 then 30
  else 31

/-- Day number of a civil date (days since 1970-01-01, Hinnant's
`days_from_civil`). -/
def daysFromCivil (y : Int) (m d : Nat) : Int :=
  let y' : Int := y - (if m ≤ 2 then 1 else 0)
  let era : Int := Int.fdiv y' 400
  let yoe : Int := y' - era * 400
  let mp : Int := if m > 2 then (m : Int) - 3 else (m : Int) + 9
  let doy : Int := Int.fdiv (153 * mp + 2) 5 + (d : Int) - 1
  let doe : Int := yoe * 365 + Int.fdiv yoe 4 - Int.fdiv yoe 100 + doy
  era * 146097 + doe - 719468

/-- Civil date of a day number (Hinnant's `civil_from_days`). -/
def civilFromDays (z : Int) : Int × Nat × Nat :=
  let z' := z + 719468
  let era : Int := Int.fdiv z' 146097
  let doe : Int := z' - era * 146097
  let yoe : Int := Int.fdiv (doe - Int.fdiv doe 1460 + Int.fdiv doe 36524 - Int.fdiv doe 146096) 365
  let y : Int := yoe + era * 400
  let doy : Int := doe - (365 * yoe + Int.fdiv yoe 4 - Int.fdiv yoe 100)
  let mp : Int := Int.fdiv (5 * doy + 2) 153
  let d : Int := doy - Int.fdiv (153 * mp + 2) 5 + 1
  let m : Int := if mp < 10 then mp + 3 else mp - 9
  (y + (if m ≤ 2 then 1 else 0), m.toNat, d.toNat)

/-! ## Python `datetime` values

A `PyDateTime` is a Python `datetime.datetime`: a local calendar date (stored
as its rata-die day number), a local time-of-day in microseconds, and the
`tzinfo` as an optional fixed UTC offset in minutes (`none` = naive).  The
scripts only ever use the fixed-offset zone JST (UTC+9, no DST). -/

structure PyDateTime where
  date : Int
  micro : Nat
  tz : Option Int
  deriving DecidableEq, Repr

/-- `Asia/Tokyo` as a fixed offset: UTC+9h = 540 minutes, no DST. -/
def JSTOffset : Int := 540

def microsPerDay : Int := 86400000000

/-- Local wall-clock timestamp in microseconds. -/
def localMicros (d : PyDateTime) : Int :=
  d.date * microsPerDay + (d.micro : Int)

/-- Absolute (UTC) timestamp in microseconds; naive values are compared by
their wall clock, which Python only ever does between two naive values — the
scripts compare only JST-aware values. -/
def instantMicros (d : PyDateTime) : Int :=
  localMicros d - (d.tz.getD 0) * 60000000

/-- Python `<=` on `datetime` values (both aware, as used by the scripts). -/
def pyLeB (a b : PyDateTime) : Bool :=
  instantMicros a ≤ instantMicros b

/-- Python `<` on `datetime` values. -/
def pyLtB (a b : PyDateTime) : Bool :=
  instantMicros a < instantMicros b

def hourOf (d : PyDateTime) : Nat := d.micro / 3600000000
def minuteOf (d : PyDateTime) : Nat := d.micro / 60000000 % 60
def secondOf (d : PyDateTime) : Nat := d.micro / 1000000 % 60
def microOf (d : PyDateTime) : Nat := d.micro % 1000000

/-- Helper to build a JST-aware `datetime` literal for concrete statements. -/
def mkJst (y : Int) (mo d h mi s : Nat) : PyDateTime :=
  { date := daysFromCivil y mo d
    micro := h * 3600000000 + mi * 60000000 + s * 1000000
    tz := some JSTOffset }

/-- `d.replace(hour=h, minute=0, second=0, microsecond=0)`. -/
def replaceTimeOfDay (d : PyDateTime) (h : Nat) : PyDateTime :=
  { d with micro := h * 3600000000 }

/-- `d - datetime.timedelta(days=n)`: on a fixed-offset (or naive) value this
moves the calendar date back by `n` days, i.e. exactly `n * 24` hours. -/
def subDays (d : PyDateTime) (n : Nat) : PyDateTime :=
  { d with date := d.date - n }

/-- `d.astimezone(JST)` for an aware value: same instant, JST fields. -/
def astimezoneJST (d : PyDateTime) : PyDateTime :=
  let t := instantMicros d + JSTOffset * 60000000
  { date := Int.fdiv t microsPerDay
    micro := (Int.fmod t microsPerDay).toNat
    tz := some JSTOffset }

/-- `to_jst` from `main.py`: naive values are assumed to already be in JST,
aware values are converted preserving the instant. -/
def to_jst (d : PyDateTime) : PyDateTime :=
  match d.tz with
  | none => { d with tz := some JSTOffset }
  | some _ => astimezoneJST d

/-- The validating `datetime.datetime(y, mo, d, h, mi, s, us, tzinfo)`
constructor: raises `ValueError` (modelled as `Except.error`) outside the
documented field ranges. -/
def mkDatetime (y : Int) (mo d h mi s us : Nat) (tz : Option Int) :
    Except String PyDateTime :=
  if y < 1 || y > 9999 then .error "year out of range"
  else if mo < 1 || mo > 12 then .error "month must be in 1..12"
  else if d < 1 || d > daysInMonth y mo then .error "day is out of range for month"
  else if h > 23 then .error "hour must be in 0..23"
  else if mi > 59 then .error "minute must be in 0..59"
  else if s > 59 then .error "second must be in 0..59"
  else if us > 999999 then .error "microsecond must be in 0..999999"
  else .ok { date := daysFromCivil y mo d
             micro := h * 3600000000 + mi * 60000000 + s * 1000000 + us
             tz := tz }

/-! ## Time window (`window_24h` in both scripts)

`main.py` anchors the day boundary at 00:00 JST; the workflow script
`.github/workflows/main.py` anchors it at 07:00 JST.  Both share the same
shape: `end = run_time.replace(hour=anchor, minute=0, second=0,
microsecond=0)`, `start = end - timedelta(days=1)`. -/

/-- `window_24h` of `main.py` (lines 48–54): anchor hour 0. -/
def window_24h (run_time : PyDateTime) : PyDateTime × PyDateTime :=
  let e := replaceTimeOfDay run_time 0
  let start := subDays e 1
  (start, e)

/-- `window_24h` of `.github/workflows/main.py` (lines 21–24): anchor hour 7. -/
def wf_window_24h (run_time : PyDateTime) : PyDateTime × PyDateTime :=
  let e := replaceTimeOfDay run_time 7
  let start := subDays e 1
  (start, e)

/-- The two source functions generalized over the configured anchor hour. -/
def windowAnchored (anchor : Nat) (run_time : PyDateTime) :
    PyDateTime × PyDateTime :=
  let e := replaceTimeOfDay run_time anchor
  let start := subDays e 1
  (start, e)

/-- The half-open membership test `start <= published < end` used by both
collectors (`main.py` lines 306 and 371, workflow line 112). -/
def inWindowB (start e p : PyDateTime) : Bool :=
  pyLeB start p && pyLtB p e

/-! ## String helpers -/

/-- Python `str.strip()` (whitespace set restricted to the ASCII whitespace
characters actually appearing in municipal pages). -/
def pyStrip (s : String) : String :=
  let ws : List Char := [' ', '\t', '\n', '\r', '\x0b', '\x0c']
  (((s.toList.dropWhile (· ∈ ws)).reverse.dropWhile (· ∈ ws)).reverse).asString

/-- Python `str.lower()` restricted to ASCII letters (content-type values and
byte markers are ASCII). -/
def charLower (c : Char) : Char :=
  if 'A' ≤ c && c ≤ 'Z' then Char.ofNat (c.toNat + 32) else c

def strLower (s : String) : String :=
  (s.toList.map charLower).asString

/-- `needle` occurs at the head of `hay`. -/
def seqStartsWith [BEq α] : List α → List α → Bool
  | _, [] => true
  | [], _ :: _ => false
  | a :: as, b :: bs => a == b && seqStartsWith as bs

/-- Python `needle in hay` substring containment over lists. -/
def seqContains [BEq α] : List α → List α → Bool
  | [], needle => needle.isEmpty
  | a :: as, needle => seqStartsWith (a :: as) needle || seqContains as needle

def strContains (hay needle : String) : Bool :=
  seqContains hay.toList needle.toList

/-! ## Loose date grammar (`parse_any_date`, `main.py` lines 176–198)

The three regexes `DATE_RE_JP = (\d{4})年(\d{1,2})月(\d{1,2})日`,
`DATE_RE_SLASH = (\d{4})[/.](\d{1,2})[/.](\d{1,2})` and
`DATE_RE_DASH = (\d{4})-(\d{1,2})-(\d{1,2})` are embedded as explicit
matchers: `re.search` tries every start position left to right, and at one
position the `\d{1,2}` groups are greedy with backtracking.  `\d` matches
Unicode decimal digits; the model covers the ASCII and full-width forms that
occur on Japanese municipal pages. -/

/-- Digit value of a `\d` character (ASCII `0-9` and full-width `０-９`). -/
def digitVal (c : Char) : Option Nat :=
  if 48 ≤ c.toNat && c.toNat ≤ 57 then some (c.toNat - 48)
  else if 0xFF10 ≤ c.toNat && c.toNat ≤ 0xFF19 then some (c.toNat - 0xFF10)
  else none

/-- `\d{4}`: exactly four digits at the head. -/
def grab4 (cs : List Char) : Option (Nat × List Char) :=
  match cs with
  | a :: b :: c :: d :: r =>
    match digitVal a, digitVal b, digitVal c, digitVal d with
    | some x1, some x2, some x3, some x4 => some (x1 * 1000 + x2 * 100 + x3 * 10 + x4, r)
    | _, _, _, _ => none
  | _ => none

/-- `\d{1,2}` immediately followed by a character satisfying `p` (which is
consumed): greedy, with backtracking from two digits to one. -/
def grab12Then (p : Char → Bool) : List Char → Option (Nat × List Char)
  | [] => none
  | a :: rest =>
    match digitVal a with
    | none => none
    | some x1 =>
      match rest with
      | [] => none
      | b :: rest2 =>
        match digitVal b with
        | none => if p b then some (x1, rest2) else none
        | some x2 =>
          match rest2 with
          | [] => if p b then some (x1, rest2) else none
          | c :: rest3 =>
            if p c then some (x1 * 10 + x2, rest3)
            else if p b then some (x1, rest2)
            else none

/-- `\d{1,2}` at the end of a pattern: greedy, two digits if available. -/
def grab12End : List Char → Option (Nat × List Char)
  | [] => none
  | a :: rest =>
    match digitVal a with
    | none => none
    | some x1 =>
      match rest with
      | [] => some (x1, [])
      | b :: rest2 =>
        match digitVal b with
        | some x2 => some (x1 * 10 + x2, rest2)
        | none => some (x1, rest)

/-- Match of `DATE_RE_JP` anchored at the head of the list. -/
def matchJPAt (cs : List Char) : Option (Nat × Nat × Nat) :=
  match grab4 cs with
  | some (y, '年' :: r2) =>
    match grab12Then (· == '月') r2 with
    | some (mo, r3) =>
      match grab12Then (· == '日') r3 with
      | some (d, _) => some (y, mo, d)
      | none => none
    | none => none
  | _ => none

/-- Match of `DATE_RE_SLASH` anchored at the head of the list. -/
def matchSlashAt (cs : List Char) : Option (Nat × Nat × Nat) :=
  match grab4 cs with
  | some (y, s1 :: r2) =>
    if s1 == '/' || s1 == '.' then
      match grab12Then (fun c => c == '/' || c == '.') r2 with
      | some (mo, r3) =>
        match grab12End r3 with
        | some (d, _) => some (y, mo, d)
        | none => none
      | none => none
    else none
  | _ => none

/-- Match of `DATE_RE_DASH` anchored at the head of the list. -/
def matchDashAt (cs : List Char) : Option (Nat × Nat × Nat) :=
  match grab4 cs with
  | some (y, '-' :: r2) =>
    match grab12Then (· == '-') r2 with
    | some (mo, r3) =>
      match grab12End r3 with
      | some (d, _) => some (y, mo, d)
      | none => none
    | none => none
  | _ => none

/-- `re.search`: try the anchored matcher at every position, left to right. -/
def reSearch (f : List Char → Option α) : List Char → Option α
  | [] => f []
  | c :: cs =>
    match f (c :: cs) with
    | some r => some r
    | none => reSearch f cs

/-- The first loose-grammar match of a text: `DATE_RE_JP`, then
`DATE_RE_SLASH`, then `DATE_RE_DASH`. -/
def firstLooseMatch (cs : List Char) : Option (Nat × Nat × Nat) :=
  match reSearch matchJPAt cs with
  | some r => some r
  | none =>
    match reSearch matchSlashAt cs with
    | some r => some r
    | none => reSearch matchDashAt cs

/-- Local JST midnight of a calendar date, the value `parse_any_date` builds
on a successful match (`dt.datetime(y, mo, d, 0, 0, 0, tzinfo=JST)`). -/
def jstMidnight (y : Int) (mo d : Nat) : PyDateTime :=
  { date := daysFromCivil y mo d, micro := 0, tz := some JSTOffset }

/-- `parse_any_date` (`main.py` lines 176–198).  The `dt.datetime(...)`
constructor raises `ValueError` on out-of-range fields, so the embedding
returns `Except`: `.ok none` when no pattern matches, `.error` when a matched
triple is not a valid calendar date. -/
def parse_any_date (text : Option String) : Except String (Option PyDateTime) :=
  match text with
  | none => .ok none
  | some s0 =>
    if s0.isEmpty then .ok none
    else
      let t := pyStrip s0
      if t.isEmpty then .ok none
      else
        let cs := t.toList
        match reSearch matchJPAt cs with
        | some (y, mo, d) => (mkDatetime (Int.ofNat y) mo d 0 0 0 0 (some JSTOffset)).map some
        | none =>
          match reSearch matchSlashAt cs with
          | some (y, mo, d) => (mkDatetime (Int.ofNat y) mo d 0 0 0 0 (some JSTOffset)).map some
          | none =>
            match reSearch matchDashAt cs with
            | some (y, mo, d) => (mkDatetime (Int.ofNat y) mo d 0 0 0 0 (some JSTOffset)).map some
            | none => .ok none

/-! ## Feed date grammar (`parse_rss_date`, `main.py` lines 200–216) -/

/-- Consume exactly `n` ASCII digits, returning their value. -/
def grabDigits : Nat → List Char → Option (Nat × List Char)
  | 0, cs => some (0, cs)
  | n + 1, c :: cs =>
    match digitVal c with
    | some x =>
      match grabDigits n cs with
      | some (v, r) => some (x * 10 ^ n + v, r)
      | none => none
    | none => none
  | _ + 1, [] => none

/-- Consume one or two ASCII digits (greedy). -/
def grab1or2 : List Char → Option (Nat × List Char)
  | [] => none
  | a :: rest =>
    match digitVal a with
    | none => none
    | some x1 =>
      match rest with
      | b :: rest2 =>
        match digitVal b with
        | some x2 => some (x1 * 10 + x2, rest2)
        | none => some (x1, rest)
      | [] => some (x1, [])

def monthAbbrevs : List (String × Nat) :=
  [("jan", 1), ("feb", 2), ("mar", 3), ("apr", 4), ("may", 5), ("jun", 6),
   ("jul", 7), ("aug", 8), ("sep", 9), ("oct", 10), ("nov", 11), ("dec", 12)]

def isAsciiLetter (c : Char) : Bool :=
  (65 ≤ c.toNat && c.toNat ≤ 90) || (97 ≤ c.toNat && c.toNat ≤ 122)

/-- Model of Python's `email.utils.parsedate_to_datetime`, restricted to the
RFC-822/1123 shape feeds emit: `[Www, ]D Mon YYYY HH:MM[:SS][ ±HHMM]`.
A numeric zone yields an aware value (except `-0000`, which RFC 2822 defines
as "no zone information": the result is naive); no zone yields a naive value.
A shape outside this grammar, or out-of-range fields, make the real function
raise — modelled as `none` (the caller catches every exception). -/
def parsedate_to_datetime (s : String) : Option PyDateTime :=
  let cs := s.toList
  -- optional day-of-week token "Www, "
  let cs :=
    match cs with
    | a :: b :: c :: ',' :: ' ' :: rest =>
      if isAsciiLetter a && isAsciiLetter b && isAsciiLetter c then rest else cs
    | _ => cs
  match grab1or2 cs with
  | none => none
  | some (day, cs) =>
    match cs with
    | ' ' :: m1 :: m2 :: m3 :: ' ' :: cs =>
      match monthAbbrevs.lookup (String.mk [charLower m1, charLower m2, charLower m3]) with
      | none => none
      | some mon =>
        match grabDigits 4 cs with
        | none => none
        | some (year, cs) =>
          match cs with
          | ' ' :: cs =>
            match grabDigits 2 cs with
            | none => none
            | some (hh, cs) =>
              match cs with
              | ':' :: cs =>
                match grabDigits 2 cs with
                | none => none
                | some (mi, cs) =>
                  let secPart : Option (Nat × List Char) :=
                    match cs with
                    | ':' :: cs2 =>
                      match grabDigits 2 cs2 with
                      | some (ss, r) => some (ss, r)
                      | none => none
                    | _ => some (0, cs)
                  match secPart with
                  | none => none
                  | some (ss, cs) =>
                    let zonePart : Option (Option Int × List Char) :=
                      match cs with
                      | [] => some (none, [])
                      | ' ' :: sign :: z1 :: z2 :: z3 :: z4 :: r =>
                        match digitVal z1, digitVal z2, digitVal z3, digitVal z4 with
                        | some a, some b, some c, some d =>
                          let mins : Int := (a * 10 + b) * 60 + (c * 10 + d)
                          if sign == '+' then some (some mins, r)
                          else if sign == '-' then
                            if a == 0 && b == 0 && c == 0 && d == 0 then some (none, r)
                            else some (some (-mins), r)
                          else none
                        | _, _, _, _ => none
                      | _ => none
                    match zonePart with
                    | none => none
                    | some (tz, rest) =>
                      if rest.isEmpty then
                        (mkDatetime year mon day hh mi ss 0 tz).toOption
                      else none
              | _ => none
          | _ => none
    | _ => none

/-- Model of Python's `datetime.fromisoformat`, restricted to the ISO-8601
shapes the pipeline meets: `YYYY-MM-DD[(T| )HH:MM[:SS[.ffffff]][±HH:MM]]`.
Out-of-grammar or out-of-range input makes the real function raise — modelled
as `none` (the caller catches every exception). -/
def fromisoformat (s : String) : Option PyDateTime :=
  let cs := s.toList
  match grabDigits 4 cs with
  | none => none
  | some (y, cs) =>
    match cs with
    | '-' :: cs =>
      match grabDigits 2 cs with
      | none => none
      | some (mo, cs) =>
        match cs with
        | '-' :: cs =>
          match grabDigits 2 cs with
          | none => none
          | some (d, cs) =>
            match cs with
            | [] => (mkDatetime y mo d 0 0 0 0 none).toOption
            | sep :: cs =>
              if sep == 'T' || sep == ' ' then
                match grabDigits 2 cs with
                | none => none
                | some (hh, cs) =>
                  match cs with
                  | ':' :: cs =>
                    match grabDigits 2 cs with
                    | none => none
                    | some (mi, cs) =>
                      let secPart : Option (Nat × Nat × List Char) :=
                        match cs with
                        | ':' :: cs2 =>
                          match grabDigits 2 cs2 with
                          | none => none
                          | some (ss, cs3) =>
                            match cs3 with
                            | '.' :: cs4 =>
                              match grabDigits 6 cs4 with
                              | some (us, r) => some (ss, us, r)
                              | none => none
                            | _ => some (ss, 0, cs3)
                        | _ => some (0, 0, cs)
                      match secPart with
                      | none => none
                      | some (ss, us, cs) =>
                        let zonePart : Option (Option Int × List Char) :=
                          match cs with
                          | [] => some (none, [])
                          | sign :: cs2 =>
                            if sign == '+' || sign == '-' then
                              match grabDigits 2 cs2 with
                              | none => none
                              | some (zh, cs3) =>
                                match cs3 with
                                | ':' :: cs4 =>
                                  match grabDigits 2 cs4 with
                                  | none => none
                                  | some (zm, r) =>
                                    let mins : Int := zh * 60 + zm
                                    some (some (if sign == '-' then -mins else mins), r)
                                | _ => none
                            else none
                        match zonePart with
                        | none => none
                        | some (tz, rest) =>
                          if rest.isEmpty then
                            (mkDatetime y mo d hh mi ss us tz).toOption
                          else none
                  | _ => none
              else none
        | _ => none
    | _ => none

/-- `t.replace("Z", "+00:00")`: every occurrence of the single character `Z`
is replaced. -/
def replaceZ (s : String) : String :=
  (s.toList.flatMap (fun c => if c == 'Z' then "+00:00".toList else [c])).asString

/-- `parse_rss_date` (`main.py` lines 200–216): RFC-822 parsing first, then
ISO-8601 with a trailing `Z` rewritten to `+00:00`; each success is
normalized to JST by `to_jst`; every failure is caught and yields `none`. -/
def parse_rss_date (text : Option String) : Option PyDateTime :=
  match text with
  | none => none
  | some s0 =>
    if s0.isEmpty then none
    else
      let t := pyStrip s0
      match parsedate_to_datetime t with
      | some d => some (to_jst d)
      | none =>
        match fromisoformat (replaceZ t) with
        | some d => some (to_jst d)
        | none => none

/-! ## Format classification (`looks_like_rss`, `main.py` lines 165–171) -/

/-- The byte string of an ASCII string literal. -/
def asciiBytes (s : String) : List Nat :=
  s.toList.map Char.toNat

/-- `RSS_MARKERS` (`main.py` line 40).  Note the fourth marker keeps the
source's capital `A` in `Atom`. -/
def RSS_MARKERS : List (List Nat) :=
  [asciiBytes "<rss", asciiBytes "<feed", asciiBytes "<rdf",
   asciiBytes "xmlns=\"http://www.w3.org/2005/Atom\""]

/-- Python `bytes.lstrip()`: drop leading ASCII whitespace bytes. -/
def bytesLstrip (bs : List Nat) : List Nat :=
  bs.dropWhile (fun b => b == 32 || b == 9 || b == 10 || b == 13 || b == 11 || b == 12)

/-- Python `bytes.lower()`: map ASCII `A-Z` to `a-z`. -/
def bytesLower (bs : List Nat) : List Nat :=
  bs.map (fun b => if 65 ≤ b && b ≤ 90 then b + 32 else b)

/-- The declared-content-type branch of `looks_like_rss`: a truthy
content type whose lower-casing contains `xml`, `rss` or `atom`. -/
def declaredTypeHit (ctype : Option String) : Bool :=
  match ctype with
  | none => false
  | some c =>
    if c.isEmpty then false
    else
      let lc := strLower c
      strContains lc "xml" || strContains lc "rss" || strContains lc "atom"

/-- The content-sniffing branch of `looks_like_rss`: one of the markers
occurs in the first 800 bytes after `lstrip` and `lower`. -/
def headMarkerHit (content : List Nat) : Bool :=
  let head := bytesLower ((bytesLstrip content).take 800)
  RSS_MARKERS.any (fun m => seqContains head m)

/-- `looks_like_rss` (`main.py` lines 165–171). -/
def looks_like_rss (content : List Nat) (ctype : Option String) : Bool :=
  if declaredTypeHit ctype then true
  else headMarkerHit content

/-! ## Feed entry location (`collect_rss`, `main.py` lines 286–291)

An `ElementTree` element: a (qualified) tag, the attributes, the text, and
the child elements.  `findall(".//tag")` returns every proper descendant with
that tag, in document order. -/

inductive XElem where
  | node (tag : String) (attrs : List (String × String)) (text : Option String)
      (children : List XElem)

def XElem.tag : XElem → String
  | .node t _ _ _ => t

def XElem.children : XElem → List XElem
  | .node _ _ _ ch => ch

mutual

/-- All proper descendants of an element, in document order. -/
def elemDesc : XElem → List XElem
  | .node _ _ _ ch => listDesc ch

def listDesc : List XElem → List XElem
  | [] => []
  | c :: cs => c :: elemDesc c ++ listDesc cs

end

/-- `root.findall(".//item")`: descendants with the unqualified tag `item`. -/
def feedItems (root : XElem) : List XElem :=
  (elemDesc root).filter (fun e => e.tag == "item")

/-- `root.findall(".//{http://www.w3.org/2005/Atom}entry")`. -/
def atomEntries (root : XElem) : List XElem :=
  (elemDesc root).filter (fun e => e.tag == "\x7bhttp://www.w3.org/2005/Atom\x7dentry")

/-- The entry list `collect_rss` iterates over (`main.py` lines 287–289):
RSS/RDF `item` descendants, and only when there are none, Atom `entry`
descendants. -/
def feedEntries (root : XElem) : List XElem :=
  let items := feedItems root
  if items.isEmpty then atomEntries root else items

/-! ## SHA-256 (`hashlib.sha256(...).hexdigest()`) over byte lists -/

def w32 : Nat := 4294967296

def add32 (a b : Nat) : Nat := (a + b) % w32

def rotr32 (x n : Nat) : Nat := ((x >>> n) ||| (x <<< (32 - n))) % w32

def shaCh (x y z : Nat) : Nat := (x &&& y) ^^^ ((x ^^^ 4294967295) &&& z)

def shaMaj (x y z : Nat) : Nat := (x &&& y) ^^^ (x &&& z) ^^^ (y &&& z)

def bigSigma0 (x : Nat) : Nat := rotr32 x 2 ^^^ rotr32 x 13 ^^^ rotr32 x 22

def bigSigma1 (x : Nat) : Nat := rotr32 x 6 ^^^ rotr32 x 11 ^^^ rotr32 x 25

def smallSigma0 (x : Nat) : Nat := rotr32 x 7 ^^^ rotr32 x 18 ^^^ (x >>> 3)

def smallSigma1 (x : Nat) : Nat := rotr32 x 17 ^^^ rotr32 x 19 ^^^ (x >>> 10)

def shaK : List Nat :=
  [1116352408, 1899447441, 3049323471, 3921009573, 961987163,
   1508970993, 2453635748, 2870763221, 3624381080, 310598401,
   607225278, 1426881987, 1925078388, 2162078206, 2614888103,
   3248222580, 3835390401, 4022224774, 264347078, 604807628,
   770255983, 1249150122, 1555081692, 1996064986, 2554220882,
   2821834349, 2952996808, 3210313671, 3336571891, 3584528711,
   113926993, 338241895, 666307205, 773529912, 1294757372,
   1396182291, 1695183700, 1986661051, 2177026350, 2456956037,
   2730485921, 2820302411, 3259730800, 3345764771, 3516065817,
   3600352804, 4094571909, 275423344, 430227734, 506948616,
   659060556, 883997877, 958139571, 1322822218, 1537002063,
   1747873779, 1955562222, 2024104815, 2227730452, 2361852424,
   2428436474, 2756734187, 3204031479, 3329325298]

def shaH0 : List Nat :=
  [1779033703, 3144134277, 1013904242, 2773480762, 1359893119,
   2600822924, 528734635, 1541459225]

/-- Big-endian bytes of `v`, `n` bytes wide. -/
def beBytes (n v : Nat) : List Nat :=
  (List.range n).reverse.map (fun i => (v >>> (8 * i)) % 256)

/-- SHA-256 padding: `0x80`, zeros to 56 mod 64, 8-byte big-endian bit length. -/
def sha256Pad (msg : List Nat) : List Nat :=
  let len := msg.length
  let zeros := (119 - len % 64) % 64
  msg ++ [0x80] ++ List.replicate zeros 0 ++ beBytes 8 (len * 8)

/-- Group bytes into big-endian 32-bit words. -/
def bytesToWords : List Nat → List Nat
  | b0 :: b1 :: b2 :: b3 :: rest =>
    (((b0 * 256 + b1) * 256 + b2) * 256 + b3) :: bytesToWords rest
  | _ => []

/-- Extend the 16 block words to the 64-entry message schedule. -/
def shaSchedule (w16 : List Nat) : List Nat :=
  (List.range 48).foldl
    (fun w _ =>
      let t := w.length
      w ++ [add32 (add32 (smallSigma1 (w.getD (t - 2) 0)) (w.getD (t - 7) 0))
                  (add32 (smallSigma0 (w.getD (t - 15) 0)) (w.getD (t - 16) 0))])
    w16

def shaRound (st : Nat × Nat × Nat × Nat × Nat × Nat × Nat × Nat) (kw : Nat × Nat) :
    Nat × Nat × Nat × Nat × Nat × Nat × Nat × Nat :=
  let (a, b, c, d, e, f, g, h) := st
  let t1 := add32 h (add32 (bigSigma1 e) (add32 (shaCh e f g) (add32 kw.1 kw.2)))
  let t2 := add32 (bigSigma0 a) (shaMaj a b c)
  (add32 t1 t2, a, b, c, add32 d t1, e, f, g)

def shaCompress (h : List Nat) (block : List Nat) : List Nat :=
  let w := shaSchedule (bytesToWords block)
  let st0 := (h.getD 0 0, h.getD 1 0, h.getD 2 0, h.getD 3 0,
              h.getD 4 0, h.getD 5 0, h.getD 6 0, h.getD 7 0)
  let (a, b, c, d, e, f, g, hh) := (shaK.zip w).foldl (fun st kw => shaRound st (kw.1, kw.2)) st0
  [add32 (h.getD 0 0) a, add32 (h.getD 1 0) b, add32 (h.getD 2 0) c,
   add32 (h.getD 3 0) d, add32 (h.getD 4 0) e, add32 (h.getD 5 0) f,
   add32 (h.getD 6 0) g, add32 (h.getD 7 0) hh]

def hexDigit (n : Nat) : Char :=
  if n < 10 then Char.ofNat (48 + n) else Char.ofNat (87 + n)

def wordHex (v : Nat) : List Char :=
  (List.range 8).map (fun i => hexDigit ((v >>> (4 * (7 - i))) % 16))

/-- `hashlib.sha256(bytes).hexdigest()`. -/
def sha256Hex (msg : List Nat) : String :=
  let padded := sha256Pad msg
  let blocks := padded.length / 64
  let hFinal := (List.range blocks).foldl
    (fun h i => shaCompress h ((padded.drop (64 * i)).take 64)) shaH0
  (hFinal.flatMap wordHex).asString

/-- UTF-8 bytes of one code point. -/
def utf8Bytes (c : Char) : List Nat :=
  let n := c.toNat
  if n < 0x80 then [n]
  else if n < 0x800 then [0xC0 + n / 0x40, 0x80 + n % 0x40]
  else if n < 0x10000 then
    [0xE0 + n / 0x1000, 0x80 + n / 0x40 % 0x40, 0x80 + n % 0x40]
  else
    [0xF0 + n / 0x40000, 0x80 + n / 0x1000 % 0x40, 0x80 + n / 0x40 % 0x40,
     0x80 + n % 0x40]

/-- Python `str.encode("utf-8")`. -/
def utf8Encode (s : String) : List Nat :=
  s.toList.flatMap utf8Bytes

/-! ## Dedup fingerprint (`dup_key`, `main.py` lines 74–82) -/

/-- `published.date().isoformat()`: the local calendar date as `YYYY-MM-DD`. -/
def dateIsoOf (d : PyDateTime) : String :=
  let (y, m, dd) := civilFromDays d.date
  let pad (w v : Nat) : List Char :=
    let s := (Nat.toDigits 10 v)
    List.replicate (w - s.length) '0' ++ s
  ((pad 4 y.toNat) ++ ['-'] ++ (pad 2 m) ++ ['-'] ++ (pad 2 dd)).asString

/-- `dup_key` (`main.py` lines 74–82):
`sha256(f"{muni}|{url}|{pub}|{title[:200]}".encode("utf-8")).hexdigest()`
where `pub` is the published calendar date in ISO form, or empty. -/
def dup_key (muni url : String) (published : Option PyDateTime) (title : String) :
    String :=
  let pub := match published with
             | some p => dateIsoOf p
             | none => ""
  let base := muni ++ "|" ++ url ++ "|" ++ pub ++ "|" ++ title.take 200
  sha256Hex (utf8Encode base)

/-! ## The external store (`notion_exists` / `notion_create`)

The Notion database is modelled as a list of stored records; `notion_exists`
is the fingerprint-equality query (`main.py` lines 84–92), `notion_create`
the check-then-write commit (`main.py` lines 94–121). -/

structure StoredRecord where
  title : String
  muni : String
  url : String
  fetched : PyDateTime
  published : Option PyDateTime
  key : String
  deriving DecidableEq, Repr

/-- `notion_exists`: does any stored record carry this fingerprint? -/
def notion_exists (key : String) (store : List StoredRecord) : Bool :=
  store.any (fun r => r.key == key)

/-- The page properties written by `notion_create` (`main.py` lines 99–107):
title and municipality truncated to 200 characters, the key, the fetch time,
and the published time when present. -/
def mkStoredRecord (title muni link : String) (published : Option PyDateTime)
    (fetched : PyDateTime) (key : String) : StoredRecord :=
  { title := title.take 200
    muni := muni.take 200
    url := link
    fetched := fetched
    published := published
    key := key }

/-- `notion_create` (`main.py` lines 94–121): derive the fingerprint,
re-check existence, and only when absent append exactly one record and
report `true`. -/
def notion_create (title muni link : String) (published : Option PyDateTime)
    (fetched : PyDateTime) (store : List StoredRecord) :
    List StoredRecord × Bool :=
  let key := dup_key muni link published title
  if notion_exists key store then (store, false)
  else (store ++ [mkStoredRecord title muni link published fetched key], true)

/-! ## Collector loop and pipeline (`collect_rss` lines 291–315, `main`)

An extracted raw entry is `(title, link?, published?)`: the title text (the
loop strips it and skips empties), the resolved absolute link if any, and the
parsed publication instant if any.  The loop then applies the window filter
and commits through `notion_create`, counting the created records. -/

def RawEntry : Type := String × Option String × Option PyDateTime

/-- The per-entry loop of `collect_rss` (`main.py` lines 291–315), threading
the store and counting created records. -/
def collectLoop (muni : String) (entries : List RawEntry)
    (start e fetched : PyDateTime) (store : List StoredRecord) :
    List StoredRecord × Nat :=
  match entries with
  | [] => (store, 0)
  | (title0, link?, pub?) :: rest =>
    let title := pyStrip title0
    if title.isEmpty then collectLoop muni rest start e fetched store
    else
      match link? with
      | none => collectLoop muni rest start e fetched store
      | some link =>
        match pub? with
        | none => collectLoop muni rest start e fetched store
        | some published =>
          if inWindowB start e published then
            let (store', created) := notion_create title muni link (some published) fetched store
            let (store'', n) := collectLoop muni rest start e fetched store'
            (store'', (if created then 1 else 0) + n)
          else collectLoop muni rest start e fetched store

/-- One pipeline run over fixed extracted content: `main` computes the window
from the run time and drives each source's entries through `collectLoop`
(`main.py` lines 393–424, with the candidates already extracted). -/
def runSources (sources : List (String × List RawEntry))
    (start e fetched : PyDateTime) (store : List StoredRecord) :
    List StoredRecord × Nat :=
  match sources with
  | [] => (store, 0)
  | (muni, entries) :: rest =>
    let (store', c) := collectLoop muni entries start e fetched store
    let (store'', t) := runSources rest start e fetched store'
    (store'', c + t)

def runPipelineOnce (sources : List (String × List RawEntry))
    (run_time : PyDateTime) (store : List StoredRecord) :
    List StoredRecord × Nat :=
  let (start, e) := window_24h run_time
  runSources sources start e run_time store

/-- The fingerprints of the entries of one source that survive the loop's
filters (non-empty title, resolved link, parsed date, inside the window). -/
def passingKeys (muni : String) : List RawEntry → PyDateTime → PyDateTime → List String
  | [], _, _ => []
  | (t0, link?, pub?) :: rest, start, e =>
    let title := pyStrip t0
    if title.isEmpty then passingKeys muni rest start e
    else
      match link? with
      | none => passingKeys muni rest start e
      | some link =>
        match pub? with
        | none => passingKeys muni rest start e
        | some pub =>
          if inWindowB start e pub then
            dup_key muni link (some pub) title :: passingKeys muni rest start e
          else passingKeys muni rest start e

/-! ## Fetch and orchestrator (`fetch_bytes` lines 128–136, `main` 393–424) -/

/-- Outcome of the HTTP GET in `fetch_bytes`: a response with a status code,
body and declared content type, or a raised transport error / timeout. -/
inductive HttpResult where
  | response (status : Nat) (content : List Nat) (ctype : Option String)
  | failure

/-- `fetch_bytes` (`main.py` lines 128–136): only a 200 response yields
bytes; any other status or any exception yields `(None, None)`. -/
def fetch_bytes (network : String → HttpResult) (url : String) :
    Option (List Nat) × Option String :=
  match network url with
  | .response status content ctype =>
    if status == 200 then (some content, ctype) else (none, none)
  | .failure => (none, none)

/-- The type of the two collectors as `main` calls them:
`collect(muni, url, content, ctype, start, end, fetched)` against the store,
returning the new store and the created count. -/
def Collector : Type :=
  String → String → List Nat → Option String → PyDateTime → PyDateTime →
    PyDateTime → List StoredRecord → List StoredRecord × Nat

/-- The body of `main`'s per-source loop (`main.py` lines 401–422): fetch,
dispatch on `looks_like_rss`, collect. -/
def perSource (network : String → HttpResult) (rssF htmlF : Collector)
    (start e fetched : PyDateTime) (muni url : String)
    (store : List StoredRecord) : List StoredRecord × Nat :=
  let muni := pyStrip muni
  let url := pyStrip url
  match fetch_bytes network url with
  | (none, _) => (store, 0)
  | (some content, ctype) =>
    if looks_like_rss content ctype then rssF muni url content ctype start e fetched store
    else htmlF muni url content ctype start e fetched store

/-- `main` (`main.py` lines 393–424) over already-loaded sources: the window
is computed once, each source is processed in turn, and the created counts
are accumulated; a failed fetch contributes zero and the loop continues. -/
def mainLoop (network : String → HttpResult) (rssF htmlF : Collector)
    (start e fetched : PyDateTime) :
    List (String × String) → List StoredRecord → List StoredRecord × Nat
  | [], st => (st, 0)
  | (muni, url) :: rest, st =>
    let (st', c) := perSource network rssF htmlF start e fetched muni url st
    let (st'', t) := mainLoop network rssF htmlF start e fetched rest st'
    (st'', c + t)

def runMain (network : String → HttpResult) (rssF htmlF : Collector)
    (fetched : PyDateTime) (sources : List (String × String))
    (store : List StoredRecord) : List StoredRecord × Nat :=
  let (start, e) := window_24h fetched
  mainLoop network rssF htmlF start e fetched sources store

/-! ## Concrete data used by the witnesses -/

/-- A feed document with an `item` nested two levels down and an Atom entry
beside it. -/
def sampleFeedDoc : XElem :=
  .node "rss" [] none
    [.node "channel" [] none
      [.node "item" [] (some "a") [],
       .node "\x7bhttp://www.w3.org/2005/Atom\x7dentry" [] (some "b") []]]

/-- A three-source network where the second source's GET raises. -/
def demoNetwork : String → HttpResult := fun u =>
  if u == "u2" then .failure
  else .response 200 (asciiBytes "<rss version=\"2.0\">") (some "application/xml")

/-- A collector that creates one record's worth of count per call. -/
def demoCollector : Collector := fun _ _ _ _ _ _ _ st => (st, 1)

/-! # Theorems -/

/-- The validity condition `dt.datetime` imposes on a date triple (times of
day are fixed at midnight in `parse_any_date`). -/
def dateFieldsValid (y : Int) (mo d : Nat) : Bool :=
  1 ≤ y && y ≤ 9999 && 1 ≤ mo && mo ≤ 12 && 1 ≤ d && d ≤ daysInMonth y mo

theorem mkDatetime_midnight_of_valid (y : Int) (mo d : Nat) (tz : Option Int)
    (h : dateFieldsValid y mo d = true) :
    mkDatetime y mo d 0 0 0 0 tz =
      .ok { date := daysFromCivil y mo d, micro := 0, tz := tz } := by
  simp only [dateFieldsValid, Bool.and_eq_true, decide_eq_true_eq] at h
  obtain ⟨⟨⟨⟨⟨h1, h2⟩, h3⟩, h4⟩, h5⟩, h6⟩ := h
  unfold mkDatetime
  rw [if_neg (by simp only [Bool.or_eq_true, decide_eq_true_eq]; omega),
    if_neg (by simp only [Bool.or_eq_true, decide_eq_true_eq]; omega),
    if_neg (by simp only [Bool.or_eq_true, decide_eq_true_eq]; omega)]
  rfl

theorem mkDatetime_error_of_invalid (y : Int) (mo d : Nat) (tz : Option Int)
    (h : dateFieldsValid y mo d = false) :
    ∃ msg, mkDatetime y mo d 0 0 0 0 tz = .error msg := by
  unfold mkDatetime
  by_cases c1 : (decide (y < 1) || decide (y > 9999)) = true
  · rw [if_pos c1]; exact ⟨_, rfl⟩
  · rw [if_neg c1]
    by_cases c2 : (decide (mo < 1) || decide (mo > 12)) = true
    · rw [if_pos c2]; exact ⟨_, rfl⟩
    · rw [if_neg c2]
      by_cases c3 : (decide (d < 1) || decide (d > daysInMonth y mo)) = true
      · rw [if_pos c3]; exact ⟨_, rfl⟩
      · exfalso
        simp only [Bool.or_eq_true, decide_eq_true_eq, not_or, not_lt] at c1 c2 c3
        have hv : dateFieldsValid y mo d = true := by
          simp only [dateFieldsValid, Bool.and_eq_true, decide_eq_true_eq]
          omega
        rw [hv] at h
        cases h

/-- `parse_any_date` on a present text equals the `firstLooseMatch` case
split: no match yields `ok none`, the first match is fed to the validating
constructor. -/
theorem parse_any_date_some_eq (s : String) :
    parse_any_date (some s) =
      match firstLooseMatch (pyStrip s).toList with
      | some (y, mo, d) =>
        (mkDatetime (Int.ofNat y) mo d 0 0 0 0 (some JSTOffset)).map some
      | none => .ok none := by
  by_cases h0 : s = ""
  · subst h0; rfl
  · have h0' : s.isEmpty = false := by
      rw [Bool.eq_false_iff]
      intro hc
      exact h0 ((String.isEmpty_iff s).mp hc)
    by_cases h1 : pyStrip s = ""
    · simp only [parse_any_date, h0', h1]
      rfl
    · have h1' : (pyStrip s).isEmpty = false := by
        rw [Bool.eq_false_iff]
        intro hc
        exact h1 ((String.isEmpty_iff _).mp hc)
      simp only [parse_any_date, h0', h1', Bool.false_eq_true, if_false,
        firstLooseMatch]
      rcases hjp : reSearch matchJPAt (pyStrip s).toList with _ | ⟨y, mo, d⟩
      · rcases hsl : reSearch matchSlashAt (pyStrip s).toList with _ | ⟨y, mo, d⟩
        · rcases hda : reSearch matchDashAt (pyStrip s).toList with _ | ⟨y, mo, d⟩ <;>
            simp [hjp, hsl, hda]
        · simp [hjp, hsl]
      · simp [hjp]

/-- A loose-grammar match whose triple is a valid calendar date parses to
local JST midnight of that date. -/
theorem parse_of_match_valid (s : String) (y mo d : Nat)
    (hm : firstLooseMatch (pyStrip s).toList = some (y, mo, d))
    (hv : dateFieldsValid (Int.ofNat y) mo d = true) :
    parse_any_date (some s) = .ok (some (jstMidnight (Int.ofNat y) mo d)) := by
  rw [parse_any_date_some_eq, hm]
  simp only [mkDatetime_midnight_of_valid _ _ _ _ hv]
  rfl

/-- Claim C4 (amended): `parse_loose_text` returns `ok none` on absent text
and whenever no pattern matches; on a first match that forms a valid calendar
date it returns local midnight of that date; but on a first match with
out-of-range components (e.g. month 13) it raises instead of returning. -/
theorem loose_parse_totality_amended (text : Option String) :
    (text = none → parse_any_date text = .ok none) ∧
    (∀ s, text = some s → firstLooseMatch (pyStrip s).toList = none →
      parse_any_date text = .ok none) ∧
    (∀ s y mo d, text = some s →
      firstLooseMatch (pyStrip s).toList = some (y, mo, d) →
      dateFieldsValid (Int.ofNat y) mo d = true →
      parse_any_date text = .ok (some (jstMidnight (Int.ofNat y) mo d))) ∧
    (∀ s y mo d, text = some s →
      firstLooseMatch (pyStrip s).toList = some (y, mo, d) →
      dateFieldsValid (Int.ofNat y) mo d = false →
      ∃ msg, parse_any_date text = .error msg) := by
  refine ⟨?_, ?_, ?_, ?_⟩
  · rintro rfl; rfl
  · rintro s rfl hm
    rw [parse_any_date_some_eq, hm]
  · rintro s y mo d rfl hm hv
    exact parse_of_match_valid s y mo d hm hv
  · rintro s y mo d rfl hm hv
    obtain ⟨msg, hmsg⟩ := mkDatetime_error_of_invalid (Int.ofNat y) mo d
      (some JSTOffset) hv
    refine ⟨msg, ?_⟩
    rw [parse_any_date_some_eq, hm]
    simp only [hmsg]
    rfl

/-- Witness for C4: a text with no date pattern yields `ok none`. -/
theorem loose_parse_totality_witness :
    parse_any_date (some "no date here") = Except.ok none :=
  (loose_parse_totality_amended (some "no date here")).2.1 "no date here" rfl rfl

/-- Counterexample to C4 as stated: the Japanese-era pattern matches
`2024年13月1日`, and `parse_any_date` then raises `ValueError` from the
`datetime` constructor instead of returning a value — it is not total. -/
theorem loose_parse_failure_cex :
    parse_any_date (some "2024年13月1日") = Except.error "month must be in 1..12" :=
  rfl

/-- Claim C5 (amended): the loose parser tries the Japanese-era pattern
first, then slash/dot, then dash, and the first match — provided its triple
is a valid calendar date — yields local JST midnight of the matched date; the
spec's two examples hold, and a text carrying both a dash date and a later
Japanese-era date parses to the Japanese-era one. -/
theorem loose_grammar_order_amended (s : String) :
    (∀ y mo d, reSearch matchJPAt (pyStrip s).toList = some (y, mo, d) →
      dateFieldsValid (Int.ofNat y) mo d = true →
      parse_any_date (some s) = .ok (some (jstMidnight (Int.ofNat y) mo d))) ∧
    (reSearch matchJPAt (pyStrip s).toList = none →
      ∀ y mo d, reSearch matchSlashAt (pyStrip s).toList = some (y, mo, d) →
      dateFieldsValid (Int.ofNat y) mo d = true →
      parse_any_date (some s) = .ok (some (jstMidnight (Int.ofNat y) mo d))) ∧
    (reSearch matchJPAt (pyStrip s).toList = none →
      reSearch matchSlashAt (pyStrip s).toList = none →
      ∀ y mo d, reSearch matchDashAt (pyStrip s).toList = some (y, mo, d) →
      dateFieldsValid (Int.ofNat y) mo d = true →
      parse_any_date (some s) = .ok (some (jstMidnight (Int.ofNat y) mo d))) ∧
    parse_any_date (some "2024年3月10日の発表") =
      .ok (some (jstMidnight 2024 3 10)) ∧
    parse_any_date (some "2024/3/10") = .ok (some (jstMidnight 2024 3 10)) ∧
    parse_any_date (some "2024-05-06 2023年1月2日") =
      .ok (some (jstMidnight 2023 1 2)) := by
  refine ⟨?_, ?_, ?_, rfl, rfl, rfl⟩
  · intro y mo d hjp hv
    exact parse_of_match_valid s y mo d (by unfold firstLooseMatch; rw [hjp]) hv
  · intro hjp y mo d hsl hv
    exact parse_of_match_valid s y mo d (by unfold firstLooseMatch; rw [hjp, hsl]) hv
  · intro hjp hsl y mo d hda hv
    exact parse_of_match_valid s y mo d (by unfold firstLooseMatch; rw [hjp, hsl, hda]) hv

/-- Witness for C5: the slash pattern fires once the Japanese-era pattern
has failed. -/
theorem loose_grammar_order_witness :
    parse_any_date (some "2024/3/10") =
      Except.ok (some (jstMidnight (Int.ofNat 2024) 3 10)) :=
  (loose_grammar_order_amended "2024/3/10").2.1 rfl 2024 3 10 rfl (by decide)

/-- Counterexample to C5 as stated: the slash pattern is the first match on
`2024/13/1`, but the parser raises on the invalid month rather than
returning the matched date's midnight. -/
theorem loose_grammar_failure_cex :
    parse_any_date (some "2024/13/1") = Except.error "month must be in 1..12" :=
  rfl

/-- Floor division and remainder by a day of microseconds recompose. -/
theorem instant_fdiv_fmod (t : Int) :
    Int.fdiv t microsPerDay * microsPerDay +
      (((Int.fmod t microsPerDay).toNat : Nat) : Int) = t := by
  have hsum := Int.fdiv_add_fmod t microsPerDay
  have hnn : 0 ≤ Int.fmod t microsPerDay :=
    Int.fmod_nonneg' t (by simp [microsPerDay])
  simp only [microsPerDay] at hsum hnn ⊢
  omega

/-- `astimezone(JST)` preserves the absolute instant. -/
theorem astimezoneJST_instant (d : PyDateTime) :
    instantMicros (astimezoneJST d) = instantMicros d := by
  have key : ∀ T : Int,
      instantMicros { date := Int.fdiv T microsPerDay,
                      micro := (Int.fmod T microsPerDay).toNat,
                      tz := some JSTOffset } = T - JSTOffset * 60000000 := by
    intro T
    have h := instant_fdiv_fmod T
    simp only [instantMicros, localMicros, Option.getD_some, microsPerDay,
      JSTOffset] at h ⊢
    omega
  calc instantMicros (astimezoneJST d)
      = (instantMicros d + JSTOffset * 60000000) - JSTOffset * 60000000 :=
        key (instantMicros d + JSTOffset * 60000000)
    _ = instantMicros d := by ring

/-- Claim C6: `parse_rss_date` attempts RFC-822 parsing first and ISO-8601
(with a trailing `Z` rewritten to `+00:00`) only as fallback, normalizes
either result into JST — a naive result by stamping the JST zone, an aware
one by an instant-preserving conversion — and returns none when both fail;
the spec's two examples normalize as stated. -/
theorem feed_parse_order (t : String) :
    (∀ d, parsedate_to_datetime (pyStrip t) = some d →
      parse_rss_date (some t) = some (to_jst d)) ∧
    (parsedate_to_datetime (pyStrip t) = none →
      ∀ d, fromisoformat (replaceZ (pyStrip t)) = some d →
      parse_rss_date (some t) = some (to_jst d)) ∧
    (parsedate_to_datetime (pyStrip t) = none →
      fromisoformat (replaceZ (pyStrip t)) = none →
      parse_rss_date (some t) = none) ∧
    (∀ d : PyDateTime, d.tz = none → to_jst d = { d with tz := some JSTOffset }) ∧
    (∀ d : PyDateTime, ∀ off, d.tz = some off →
      (to_jst d).tz = some JSTOffset ∧
      instantMicros (to_jst d) = instantMicros d) ∧
    parse_rss_date (some "Sun, 10 Mar 2024 09:00:00 +0900") =
      some (mkJst 2024 3 10 9 0 0) ∧
    parse_rss_date (some "2024-03-10T00:00:00Z") = some (mkJst 2024 3 10 9 0 0) := by
  have hempty : ∀ h0 : t = "",
      parsedate_to_datetime (pyStrip t) = none := by
    rintro rfl; rfl
  refine ⟨?_, ?_, ?_, ?_, ?_, rfl, rfl⟩
  · intro d hd
    by_cases h0 : t = ""
    · rw [hempty h0] at hd; cases hd
    · have h0' : t.isEmpty = false := by
        rw [Bool.eq_false_iff]; intro hc; exact h0 ((String.isEmpty_iff t).mp hc)
      simp [parse_rss_date, h0', hd]
  · intro hrfc d hd
    by_cases h0 : t = ""
    · subst h0
      rw [show fromisoformat (replaceZ (pyStrip "")) = none from rfl] at hd
      cases hd
    · have h0' : t.isEmpty = false := by
        rw [Bool.eq_false_iff]; intro hc; exact h0 ((String.isEmpty_iff t).mp hc)
      simp [parse_rss_date, h0', hrfc, hd]
  · intro hrfc hiso
    by_cases h0 : t = ""
    · subst h0; rfl
    · have h0' : t.isEmpty = false := by
        rw [Bool.eq_false_iff]; intro hc; exact h0 ((String.isEmpty_iff t).mp hc)
      simp [parse_rss_date, h0', hrfc, hiso]
  · intro d h
    simp [to_jst, h]
  · intro d off h
    refine ⟨by simp [to_jst, h, astimezoneJST], ?_⟩
    simp only [to_jst, h]
    exact astimezoneJST_instant d

/-- Witness for C6: the RFC-822 branch fires on the `pubDate` example. -/
theorem feed_parse_order_witness :
    parse_rss_date (some "Sun, 10 Mar 2024 09:00:00 +0900") =
      some (to_jst { date := daysFromCivil 2024 3 10,
                     micro := 32400000000, tz := some 540 }) :=
  (feed_parse_order "Sun, 10 Mar 2024 09:00:00 +0900").1 _ rfl

/-- Claim C2: the window's end is the reference instant with the time of day
set to the configured anchor hour (minutes, seconds and sub-seconds zeroed),
the start is exactly 24 hours earlier, membership is half-open, and for
anchor hour 07:00 at reference 2024-03-10T07:00 JST the window is
[2024-03-09T07:00, 2024-03-10T07:00): the lower endpoint is included, the
upper excluded.  `main.py` instantiates the anchor at 0, the workflow script
at 7. -/
theorem window_correctness (run_time : PyDateTime) (anchor : Nat)
    (_hanchor : anchor ≤ 23) :
    window_24h run_time = windowAnchored 0 run_time ∧
    wf_window_24h run_time = windowAnchored 7 run_time ∧
    (windowAnchored anchor run_time).2 =
      { run_time with micro := anchor * 3600000000 } ∧
    hourOf (windowAnchored anchor run_time).2 = anchor ∧
    minuteOf (windowAnchored anchor run_time).2 = 0 ∧
    secondOf (windowAnchored anchor run_time).2 = 0 ∧
    microOf (windowAnchored anchor run_time).2 = 0 ∧
    (windowAnchored anchor run_time).1 =
      { (windowAnchored anchor run_time).2 with
          date := (windowAnchored anchor run_time).2.date - 1 } ∧
    instantMicros (windowAnchored anchor run_time).1 =
      instantMicros (windowAnchored anchor run_time).2 - 86400000000 ∧
    pyLeB (windowAnchored anchor run_time).1 (windowAnchored anchor run_time).2 = true ∧
    wf_window_24h (mkJst 2024 3 10 7 0 0) =
      (mkJst 2024 3 9 7 0 0, mkJst 2024 3 10 7 0 0) ∧
    inWindowB (mkJst 2024 3 9 7 0 0) (mkJst 2024 3 10 7 0 0)
      (mkJst 2024 3 9 7 0 0) = true ∧
    inWindowB (mkJst 2024 3 9 7 0 0) (mkJst 2024 3 10 7 0 0)
      (mkJst 2024 3 10 7 0 0) = false := by
  refine ⟨rfl, rfl, rfl, ?_, ?_, ?_, ?_, rfl, ?_, ?_, by decide, by decide, by decide⟩
  · simp [hourOf, windowAnchored, replaceTimeOfDay]
  · simp only [minuteOf, windowAnchored, replaceTimeOfDay]
    omega
  · simp only [secondOf, windowAnchored, replaceTimeOfDay]
    omega
  · simp only [microOf, windowAnchored, replaceTimeOfDay]
    omega
  · simp only [instantMicros, localMicros, windowAnchored, replaceTimeOfDay,
      subDays, microsPerDay]
    ring
  · simp only [pyLeB, instantMicros, localMicros, windowAnchored,
      replaceTimeOfDay, subDays, microsPerDay, decide_eq_true_eq]
    omega

/-- Witness for C2 at anchor hour 7 and the example reference instant. -/
theorem window_correctness_witness :
    hourOf (windowAnchored 7 (mkJst 2024 3 10 7 0 0)).2 = 7 :=
  (window_correctness (mkJst 2024 3 10 7 0 0) 7 (by decide)).2.2.2.1

/-- Claim C3: `notion_create` re-checks the fingerprint and, when it is
absent, appends exactly one stored record and returns `true`; when present it
returns `false` and leaves the store unchanged. -/
theorem commit_semantics (title muni link : String)
    (published : Option PyDateTime) (fetched : PyDateTime)
    (store : List StoredRecord) :
    (notion_exists (dup_key muni link published title) store = false →
      notion_create title muni link published fetched store =
        (store ++ [mkStoredRecord title muni link published fetched
            (dup_key muni link published title)], true)) ∧
    (notion_exists (dup_key muni link published title) store = true →
      notion_create title muni link published fetched store = (store, false)) := by
  constructor <;> intro h <;> simp [notion_create, h]

/-- Witness for C3: a fresh fingerprint is written once, a present one is
refused without writing. -/
theorem commit_semantics_witness :
    notion_create "t" "a" "u" none (mkJst 2024 3 10 0 0 0) [] =
      ([mkStoredRecord "t" "a" "u" none (mkJst 2024 3 10 0 0 0)
          (dup_key "a" "u" none "t")], true) ∧
    notion_create "t" "a" "u" none (mkJst 2024 3 10 0 0 0)
        [mkStoredRecord "t" "a" "u" none (mkJst 2024 3 10 0 0 0)
          (dup_key "a" "u" none "t")] =
      ([mkStoredRecord "t" "a" "u" none (mkJst 2024 3 10 0 0 0)
          (dup_key "a" "u" none "t")], false) := by
  constructor
  · have h := (commit_semantics "t" "a" "u" none (mkJst 2024 3 10 0 0 0) []).1
      (by rfl)
    simpa using h
  · exact (commit_semantics "t" "a" "u" none (mkJst 2024 3 10 0 0 0)
      [mkStoredRecord "t" "a" "u" none (mkJst 2024 3 10 0 0 0)
        (dup_key "a" "u" none "t")]).2
      (by simp [notion_exists, mkStoredRecord])

/-- Claim C7: `looks_like_rss` answers `true` exactly when the declared
content type (case-insensitively) mentions xml/rss/atom, or, failing that,
when the first 800 bytes after `lstrip` and lower-casing contain one of the
`RSS_MARKERS`; the two spec examples classify as stated. -/
theorem format_classification (content : List Nat) (ctype : Option String) :
    looks_like_rss content ctype = (declaredTypeHit ctype || headMarkerHit content) ∧
    (declaredTypeHit ctype = true → looks_like_rss content ctype = true) ∧
    (declaredTypeHit ctype = false →
      looks_like_rss content ctype = headMarkerHit content) ∧
    looks_like_rss (asciiBytes "<?xml version=\"1.0\"?><rss version=\"2.0\"><channel></channel></rss>")
      (some "text/plain") = true ∧
    looks_like_rss (asciiBytes "<!DOCTYPE html><html><body></body></html>")
      (some "text/html") = false := by
  refine ⟨?_, ?_, ?_, by decide, by decide⟩ <;>
    first
      | (intro h; simp [looks_like_rss, h])
      | (cases h : declaredTypeHit ctype <;> simp [looks_like_rss, h])

/-- Witness for C7: with a non-matching declared type the decision is
exactly the byte sniff. -/
theorem format_classification_witness :
    looks_like_rss (asciiBytes "<!DOCTYPE html>") (some "text/plain") =
      headMarkerHit (asciiBytes "<!DOCTYPE html>") :=
  (format_classification (asciiBytes "<!DOCTYPE html>") (some "text/plain")).2.2.1
    (by decide)

/-- Claim C10: the fingerprint depends on the published instant only through
its calendar date and on the title only through its first 200 characters. -/
theorem fingerprint_coarseness (muni url : String) (p1 p2 : PyDateTime)
    (t1 t2 : String) (hdate : p1.date = p2.date)
    (htitle : t1.take 200 = t2.take 200) :
    dup_key muni url (some p1) t1 = dup_key muni url (some p2) t2 := by
  simp only [dup_key, dateIsoOf, hdate, htitle]

/-- Witness for C10: same calendar date at different times of day, same
200-character prefix with different tails. -/
theorem fingerprint_coarseness_witness :
    dup_key "札幌市" "https://x/1" (some (mkJst 2024 3 10 9 30 0))
        ((List.replicate 200 'a').asString ++ "X") =
      dup_key "札幌市" "https://x/1" (some (mkJst 2024 3 10 23 59 59))
        ((List.replicate 200 'a').asString ++ "Y") :=
  fingerprint_coarseness "札幌市" "https://x/1" _ _ _ _ (by rfl)
    (by set_option maxRecDepth 10000 in decide)

/-- A fingerprint present in the store is still present after any commit. -/
theorem notion_exists_create (k title muni link : String)
    (published : Option PyDateTime) (fetched : PyDateTime)
    (store : List StoredRecord) (h : notion_exists k store = true) :
    notion_exists k (notion_create title muni link published fetched store).1 = true := by
  simp only [notion_create]
  split_ifs with hc
  · exact h
  · simp only [notion_exists, List.any_append] at h ⊢
    simp [h]

/-- After a commit, the committed candidate's fingerprint is in the store. -/
theorem notion_create_own_key (title muni link : String)
    (published : Option PyDateTime) (fetched : PyDateTime)
    (store : List StoredRecord) :
    notion_exists (dup_key muni link published title)
      (notion_create title muni link published fetched store).1 = true := by
  simp only [notion_create]
  split_ifs with hc
  · exact hc
  · simp [notion_exists, List.any_append, mkStoredRecord]

/-- The collector loop never removes a fingerprint from the store. -/
theorem collectLoop_preserves (muni : String) (entries : List RawEntry)
    (start e fetched : PyDateTime) (k : String) :
    ∀ store, notion_exists k store = true →
    notion_exists k (collectLoop muni entries start e fetched store).1 = true := by
  induction entries with
  | nil => intro store h; exact h
  | cons en rest ih =>
    intro store h
    obtain ⟨t0, link?, pub?⟩ := en
    by_cases ht : (pyStrip t0).isEmpty
    · simpa [collectLoop, ht] using ih store h
    · cases link? with
      | none => simpa [collectLoop, ht] using ih store h
      | some link =>
        cases pub? with
        | none => simpa [collectLoop, ht] using ih store h
        | some pub =>
          by_cases hw : inWindowB start e pub
          · simp only [collectLoop, ht, hw, Bool.false_eq_true, if_false, if_true]
            cases hc : notion_create (pyStrip t0) muni link (some pub) fetched store with
            | mk store' created =>
              have h1 := notion_exists_create k (pyStrip t0) muni link (some pub) fetched store h
              rw [hc] at h1
              cases hl : collectLoop muni rest start e fetched store' with
              | mk store'' n =>
                have h2 := ih store' h1
                rw [hl] at h2
                simpa using h2
          · simpa [collectLoop, ht, hw] using ih store h

/-- After the collector loop, every entry that passed the filters has its
fingerprint in the store. -/
theorem collectLoop_covers (muni : String) (entries : List RawEntry)
    (start e fetched : PyDateTime) :
    ∀ store, ∀ k ∈ passingKeys muni entries start e,
    notion_exists k (collectLoop muni entries start e fetched store).1 = true := by
  induction entries with
  | nil => intro store k hk; simp [passingKeys] at hk
  | cons en rest ih =>
    intro store k hk
    obtain ⟨t0, link?, pub?⟩ := en
    by_cases ht : (pyStrip t0).isEmpty
    · have hk' : k ∈ passingKeys muni rest start e := by
        simpa [passingKeys, ht] using hk
      simpa [collectLoop, ht] using ih store k hk'
    · cases link? with
      | none =>
        have hk' : k ∈ passingKeys muni rest start e := by
          simpa [passingKeys, ht] using hk
        simpa [collectLoop, ht] using ih store k hk'
      | some link =>
        cases pub? with
        | none =>
          have hk' : k ∈ passingKeys muni rest start e := by
            simpa [passingKeys, ht] using hk
          simpa [collectLoop, ht] using ih store k hk'
        | some pub =>
          by_cases hw : inWindowB start e pub
          · have hk' : k = dup_key muni link (some pub) (pyStrip t0) ∨
                k ∈ passingKeys muni rest start e := by
              simpa [passingKeys, ht, hw] using hk
            simp only [collectLoop, ht, hw, Bool.false_eq_true, if_false, if_true]
            cases hc : notion_create (pyStrip t0) muni link (some pub) fetched store with
            | mk store' created =>
              cases hl : collectLoop muni rest start e fetched store' with
              | mk store'' n =>
                rcases hk' with rfl | hk'
                · have h1 := notion_create_own_key (pyStrip t0) muni link (some pub) fetched store
                  rw [hc] at h1
                  have h2 := collectLoop_preserves muni rest start e fetched _ store' h1
                  rw [hl] at h2
                  simpa using h2
                · have h2 := ih store' k hk'
                  rw [hl] at h2
                  simpa using h2
          · have hk' : k ∈ passingKeys muni rest start e := by
              simpa [passingKeys, ht, hw] using hk
            simpa [collectLoop, ht, hw] using ih store k hk'

/-- When every passing fingerprint is already stored, the collector loop
creates nothing and leaves the store unchanged. -/
theorem collectLoop_stable (muni : String) (entries : List RawEntry)
    (start e fetched : PyDateTime) :
    ∀ store,
    (∀ k ∈ passingKeys muni entries start e, notion_exists k store = true) →
    collectLoop muni entries start e fetched store = (store, 0) := by
  induction entries with
  | nil => intro store _; rfl
  | cons en rest ih =>
    intro store h
    obtain ⟨t0, link?, pub?⟩ := en
    by_cases ht : (pyStrip t0).isEmpty
    · have h' : ∀ k ∈ passingKeys muni rest start e, notion_exists k store = true := by
        intro k hk
        exact h k (by simpa [passingKeys, ht] using hk)
      simpa [collectLoop, ht] using ih store h'
    · cases link? with
      | none =>
        have h' : ∀ k ∈ passingKeys muni rest start e, notion_exists k store = true := by
          intro k hk
          exact h k (by simpa [passingKeys, ht] using hk)
        simpa [collectLoop, ht] using ih store h'
      | some link =>
        cases pub? with
        | none =>
          have h' : ∀ k ∈ passingKeys muni rest start e, notion_exists k store = true := by
            intro k hk
            exact h k (by simpa [passingKeys, ht] using hk)
          simpa [collectLoop, ht] using ih store h'
        | some pub =>
          by_cases hw : inWindowB start e pub
          · have hhead : notion_exists (dup_key muni link (some pub) (pyStrip t0)) store = true :=
              h _ (by simp [passingKeys, ht, hw])
            have hcreate : notion_create (pyStrip t0) muni link (some pub) fetched store =
                (store, false) := by
              unfold notion_create
              rw [if_pos hhead]
            have h' : ∀ k ∈ passingKeys muni rest start e, notion_exists k store = true := by
              intro k hk
              exact h k (by simp [passingKeys, ht, hw, hk])
            simp only [collectLoop, ht, hw, Bool.false_eq_true, if_false, if_true, hcreate,
              ih store h']
          · have h' : ∀ k ∈ passingKeys muni rest start e, notion_exists k store = true := by
              intro k hk
              exact h k (by simpa [passingKeys, ht, hw] using hk)
            simpa [collectLoop, ht, hw] using ih store h'

/-- `runSources` never removes a fingerprint from the store. -/
theorem runSources_preserves (sources : List (String × List RawEntry))
    (start e fetched : PyDateTime) (k : String) :
    ∀ store, notion_exists k store = true →
    notion_exists k (runSources sources start e fetched store).1 = true := by
  induction sources with
  | nil => intro store h; exact h
  | cons src rest ih =>
    intro store h
    obtain ⟨muni, entries⟩ := src
    simp only [runSources]
    cases hc : collectLoop muni entries start e fetched store with
    | mk store' c =>
      cases hr : runSources rest start e fetched store' with
      | mk store'' tot =>
        have h1 := collectLoop_preserves muni entries start e fetched k store h
        rw [hc] at h1
        have h2 := ih store' h1
        rw [hr] at h2
        simpa using h2

/-- After one full run, every passing fingerprint of every source is in the
store. -/
theorem runSources_covers (sources : List (String × List RawEntry))
    (start e fetched : PyDateTime) :
    ∀ store, ∀ src ∈ sources, ∀ k ∈ passingKeys src.1 src.2 start e,
    notion_exists k (runSources sources start e fetched store).1 = true := by
  induction sources with
  | nil => intro store src hsrc; cases hsrc
  | cons hd rest ih =>
    intro store src hsrc k hk
    obtain ⟨muni, entries⟩ := hd
    simp only [runSources]
    cases hc : collectLoop muni entries start e fetched store with
    | mk store' c =>
      cases hr : runSources rest start e fetched store' with
      | mk store'' tot =>
        rw [List.mem_cons] at hsrc
        rcases hsrc with rfl | hsrc
        · have h1 := collectLoop_covers muni entries start e fetched store k hk
          rw [hc] at h1
          have h2 := runSources_preserves rest start e fetched k store' h1
          rw [hr] at h2
          simpa using h2
        · have h2 := ih store' src hsrc k hk
          rw [hr] at h2
          simpa using h2

/-- When every passing fingerprint of every source is already stored, a full
run creates nothing and leaves the store unchanged. -/
theorem runSources_stable (sources : List (String × List RawEntry))
    (start e fetched : PyDateTime) :
    ∀ store,
    (∀ src ∈ sources, ∀ k ∈ passingKeys src.1 src.2 start e,
      notion_exists k store = true) →
    runSources sources start e fetched store = (store, 0) := by
  induction sources with
  | nil => intro store _; rfl
  | cons hd rest ih =>
    intro store h
    obtain ⟨muni, entries⟩ := hd
    have hhd : ∀ k ∈ passingKeys muni entries start e,
        notion_exists k store = true := by
      intro k hk
      exact h (muni, entries) (List.mem_cons_self _ _) k hk
    have hrest : ∀ src ∈ rest, ∀ k ∈ passingKeys src.1 src.2 start e,
        notion_exists k store = true := by
      intro src hsrc k hk
      exact h src (List.mem_cons_of_mem _ hsrc) k hk
    simp only [runSources, collectLoop_stable muni entries start e fetched store hhd,
      ih store hrest]

/-- Claim C1: re-running the pipeline over the same extracted source content
and the same reference time, starting from the store a previous run left
behind, creates zero records and leaves the store unchanged: every passing
candidate's fingerprint is already present, so every commit refuses to
write. -/
theorem pipeline_idempotent (sources : List (String × List RawEntry))
    (run_time : PyDateTime) (store : List StoredRecord) :
    runPipelineOnce sources run_time (runPipelineOnce sources run_time store).1 =
      ((runPipelineOnce sources run_time store).1, 0) := by
  unfold runPipelineOnce
  exact runSources_stable sources _ _ run_time _
    (fun src hsrc k hk =>
      runSources_covers sources _ _ run_time store src hsrc k hk)

/-- Claim C8: the extractor iterates over `item` descendants found anywhere
in the tree, and only when there are none over Atom-namespaced `entry`
descendants; nothing else enters the entry list. -/
theorem feed_entry_location (root : XElem) (e : XElem) :
    (feedItems root ≠ [] → feedEntries root = feedItems root) ∧
    (feedItems root = [] → feedEntries root = atomEntries root) ∧
    (e ∈ feedEntries root ↔
      (feedItems root ≠ [] ∧ e ∈ feedItems root) ∨
      (feedItems root = [] ∧ e ∈ atomEntries root)) := by
  by_cases h : feedItems root = [] <;>
    simp [feedEntries, h, List.isEmpty_iff]

/-- Witness for C8: in a document holding both a nested `item` and an Atom
`entry`, the entry list is exactly the `item` descendants. -/
theorem feed_entry_location_witness :
    feedEntries sampleFeedDoc = feedItems sampleFeedDoc :=
  (feed_entry_location sampleFeedDoc sampleFeedDoc).1
    (by
      have h : feedItems sampleFeedDoc = [.node "item" [] (some "a") []] := rfl
      rw [h]; simp)

/-- Claim C9: a transport error or non-200 status makes `fetch_bytes` yield
no result, the failing source contributes nothing and the loop continues;
with three sources whose second fetch fails, the first and third are fully
processed and the reported total is their sum. -/
theorem fault_isolation (network : String → HttpResult)
    (rssF htmlF : Collector) (fetched start e : PyDateTime)
    (muni url : String) (rest : List (String × String))
    (st : List StoredRecord) :
    (∀ u, network u = .failure → fetch_bytes network u = (none, none)) ∧
    (∀ u status c ct, network u = .response status c ct → status ≠ 200 →
      fetch_bytes network u = (none, none)) ∧
    ((fetch_bytes network (pyStrip url)).1 = none →
      mainLoop network rssF htmlF start e fetched ((muni, url) :: rest) st =
        mainLoop network rssF htmlF start e fetched rest st) ∧
    (∀ s1 s2 s3 : String × String, ∀ store : List StoredRecord,
      (fetch_bytes network (pyStrip s2.2)).1 = none →
      runMain network rssF htmlF fetched [s1, s2, s3] store =
        (let (st1, c1) := perSource network rssF htmlF
            (window_24h fetched).1 (window_24h fetched).2 fetched s1.1 s1.2 store
         let (st3, c3) := perSource network rssF htmlF
            (window_24h fetched).1 (window_24h fetched).2 fetched s3.1 s3.2 st1
         (st3, c1 + c3))) := by
  have hskip : ∀ start' e' : PyDateTime, ∀ m u : String,
      (fetch_bytes network (pyStrip u)).1 = none →
      ∀ st' : List StoredRecord,
      perSource network rssF htmlF start' e' fetched m u st' = (st', 0) := by
    intro start' e' m u h st'
    cases hfb : fetch_bytes network (pyStrip u) with
    | mk o ct =>
      rw [hfb] at h
      simp only at h
      subst h
      unfold perSource
      simp only [hfb]
  refine ⟨?_, ?_, ?_, ?_⟩
  · intro u h
    simp [fetch_bytes, h]
  · intro u status c ct h hs
    simp [fetch_bytes, h, hs]
  · intro h
    simp only [mainLoop]
    rw [hskip start e muni url h st]
    cases hm : mainLoop network rssF htmlF start e fetched rest st with
    | mk st'' t => simp
  · intro s1 s2 s3 store h
    obtain ⟨m1, u1⟩ := s1
    obtain ⟨m2, u2⟩ := s2
    obtain ⟨m3, u3⟩ := s3
    simp only [runMain, mainLoop]
    cases hp1 : perSource network rssF htmlF
        (window_24h fetched).1 (window_24h fetched).2 fetched m1 u1 store with
    | mk st1 c1 =>
      rw [hskip (window_24h fetched).1 (window_24h fetched).2 m2 u2 h st1]
      cases hp3 : perSource network rssF htmlF
          (window_24h fetched).1 (window_24h fetched).2 fetched m3 u3 st1 with
      | mk st3 c3 => simp

/-- Witness for C9: three sources, the second GET raises; the first and
third are processed and the reported total is 2. -/
theorem fault_isolation_witness :
    runMain demoNetwork demoCollector demoCollector (mkJst 2024 3 10 7 0 0)
      [("a", "u1"), ("b", "u2"), ("c", "u3")] [] = ([], 2) := by
  rw [(fault_isolation demoNetwork demoCollector demoCollector
      (mkJst 2024 3 10 7 0 0) (mkJst 2024 3 10 7 0 0) (mkJst 2024 3 10 7 0 0)
      "" "" [] []).2.2.2 ("a", "u1") ("b", "u2") ("c", "u3") [] (by rfl)]
  rfl

end HokkaidoNews
